import Mathlib

/-
Verification of the X12 EDI codec (edi_x12.py, edi_835.py, edi_837.py,
claim_status_app.py) against its natural-language specification.

The Python code is shallowly embedded: strings are Lean String (a wrapper
around List Char, matching Python str as a sequence of code points),
Python list indexing with an explicit length guard becomes a total default
access, Python dicts built with fixed keys become association lists in
insertion order, and the ambient clock read by datetime.utcnow()/now()
becomes an explicit PyNow argument holding the formatted date/time strings
the code actually uses.
-/

set_option maxRecDepth 10000
set_option maxHeartbeats 1000000

/-- ASCII approximation of the whitespace set stripped by Python str.strip(). -/
def isPySpace (c : Char) : Bool :=
  c = ' ' || c = '\t' || c = '\n' || c = '\r' || c = '\x0b' || c = '\x0c'

/-- Python str.strip(): remove leading and trailing whitespace. -/
def pyStrip (s : String) : String :=
  String.mk (((s.data.dropWhile isPySpace).reverse.dropWhile isPySpace).reverse)

/-- Python str.upper() (ASCII letters, the only ones the code meets). -/
def pyUpper (s : String) : String :=
  String.mk (s.data.map Char.toUpper)

/-- Python text.count(c) for a single-character needle. -/
def countChar (s : String) (c : Char) : Nat :=
  s.data.count c

/-- Single-character split, keeping empty pieces: Python str.split(sep). -/
def splitOnChar (sep : Char) : List Char → List (List Char)
  | [] => [[]]
  | c :: rest =>
    let r := splitOnChar sep rest
    if c = sep then [] :: r
    else
      match r with
      | [] => [[c]]
      | h :: t => (c :: h) :: t

/-- Python str.split(sep) for a one-character separator. -/
def pySplitChar (s : String) (sep : Char) : List String :=
  (splitOnChar sep s.data).map String.mk

/-- Python text.replace of a CRLF pair by a lone LF (left to right, non-overlapping). -/
def replCRLF : List Char → List Char
  | '\r' :: '\n' :: rest => '\n' :: replCRLF rest
  | c :: rest => c :: replCRLF rest
  | [] => []

/-- Python text.replace for the CRLF normalisation in split_segments. -/
def pyReplaceCRLF (s : String) : String :=
  String.mk (replCRLF s.data)

/-- Python s.startswith(p). -/
def pyStartsWith (s p : String) : Bool :=
  p.data.isPrefixOf s.data

/-- Python s.endswith(c) for a one-character suffix. -/
def pyEndsWithChar (s : String) (c : Char) : Bool :=
  s.data.getLast? = some c

/-- Whether the first list occurs as a contiguous run inside the second. -/
def listInfixOf (p : List Char) : List Char → Bool
  | [] => p.isEmpty
  | c :: rest => p.isPrefixOf (c :: rest) || listInfixOf p rest

/-- Python substring membership: p in s. -/
def pyContains (s p : String) : Bool :=
  listInfixOf p.data s.data

/-- Decimal digit character, 48 + n for n below 10. -/
def digitChar (n : Nat) : Char :=
  Char.ofNat (48 + n)

/-- Decimal digits of a natural number, fuel-driven so that it reduces by rfl. -/
def natDigitsAux : Nat → Nat → List Char
  | 0, _ => []
  | fuel + 1, n =>
    if n < 10 then [digitChar n]
    else natDigitsAux fuel (n / 10) ++ [digitChar (n % 10)]

/-- Python str(n) for a non-negative integer. -/
def natStr (n : Nat) : String :=
  String.mk (natDigitsAux (n + 1) n)

/-- Python str(i) for an integer. -/
def intStr (i : Int) : String :=
  if i < 0 then "-" ++ natStr i.natAbs else natStr i.natAbs

/-- Numeric value of a digit character. -/
def digitVal (c : Char) : Nat :=
  c.toNat - 48

/-- Natural number named by a list of decimal digit characters. -/
def natFromDigits (l : List Char) : Nat :=
  l.foldl (fun a c => 10 * a + digitVal c) 0

/-- Python int(s): strip whitespace, optional single sign, then ASCII decimal
digits; None when that shape is not met.  (Exotic Python forms such as
underscore separators or non-ASCII digits are outside the scope of the
documents considered here.) -/
def pyInt? (s : String) : Option Int :=
  match (pyStrip s).data with
  | [] => none
  | c :: rest =>
    let t := c :: rest
    let p : Bool × List Char :=
      if c = '-' then (true, rest)
      else if c = '+' then (false, rest)
      else (false, t)
    if !p.2.isEmpty && p.2.all Char.isDigit then
      some (if p.1 then -(natFromDigits p.2 : Int) else (natFromDigits p.2 : Int))
    else none

/-- Python s.ljust(w) with spaces. -/
def ljust (s : String) (w : Nat) : String :=
  s ++ String.mk (List.replicate (w - s.length) ' ')

/-- Python format spec 09d on a non-negative integer: zero-pad to width 9. -/
def pad9 (n : Nat) : String :=
  let s := natStr n
  if s.length < 9 then String.mk (List.replicate (9 - s.length) '0') ++ s else s

/-- Python elem.join(parts) for a one-character separator. -/
def joinElems (sep : Char) : List String → String
  | [] => ""
  | [x] => x
  | x :: y :: xs => x ++ String.singleton sep ++ joinElems sep (y :: xs)

/-- Python empty-string join of a list of strings. -/
def concatAll : List String → String
  | [] => ""
  | s :: r => s ++ concatAll r

/-- Default segment terminator (edi_x12.py DEFAULT_SEG). -/
def DEFAULT_SEG : Char := '~'

/-- Default element separator (edi_x12.py DEFAULT_ELEM). -/
def DEFAULT_ELEM : Char := '*'

/-- Default component separator (edi_x12.py DEFAULT_SUBELEM). -/
def DEFAULT_SUBELEM : Char := ':'

/-- edi_x12.py detect_delimiters: element separator from offset 3, component
separator from offset 104, segment terminator from offset 105 of a long-enough
ISA-headed text; newline fallback when the candidate terminator occurs fewer
than 2 times while the text has at least 2 newlines.  Returns
(segment terminator, element separator, component separator). -/
def detect_delimiters (ediText : String) : Char × Char × Char :=
  let seg0 := DEFAULT_SEG
  let elem0 := DEFAULT_ELEM
  let comp0 := DEFAULT_SUBELEM
  let triple :=
    if pyStartsWith ediText "ISA" = true ∧ 106 ≤ ediText.length then
      let elem := ediText.data.getD 3 elem0
      let comp := if 104 < ediText.length then ediText.data.getD 104 comp0 else comp0
      let seg := if 105 < ediText.length then ediText.data.getD 105 seg0 else seg0
      (seg, elem, comp)
    else (seg0, elem0, comp0)
  let seg :=
    if countChar ediText triple.1 < 2 ∧ 2 ≤ countChar ediText '\n' then '\n' else triple.1
  (seg, triple.2.1, triple.2.2)

/-- edi_x12.py split_segments: strip, split on the terminator (after CRLF
normalisation in the newline case, or after appending a missing final
terminator otherwise), strip each piece, drop empties. -/
def split_segments (ediText : String) (segT : Char) : List String :=
  let text := pyStrip ediText
  let parts :=
    if segT = '\n' then
      (pySplitChar (pyReplaceCRLF text) '\n').map pyStrip
    else
      let text2 := if pyEndsWithChar text segT then text else text ++ String.singleton segT
      (pySplitChar text2 segT).map pyStrip
  parts.filter (fun p => p ≠ "")

/-- edi_x12.py parse_segments: split each segment into elements. -/
def parse_segments (ediText : String) (segT elemT : Char) : List (List String) :=
  (split_segments ediText segT).map (fun s => pySplitChar s elemT)

/-- Guarded element access, the Python pattern parts[i] if len(parts) > i else "". -/
def ebElem (parts : List String) (i : Nat) : String :=
  (parts.get? i).getD ""

/-- edi_x12.py EB01_MAP, in source order. -/
def EB01_MAP : List (String × String) :=
  [("1", "Active Coverage"),
   ("6", "Inactive Coverage"),
   ("7", "Policy Cancelled"),
   ("8", "Policy Not Renewed"),
   ("I", "Non-Covered"),
   ("F", "Financial/Remaining Benefits")]

/-- Python dict .get(k, "") on a fixed-key string map. -/
def lookupD (m : List (String × String)) (k : String) : String :=
  (m.lookup k).getD ""

/-- Key E01..E13 of the raw positional EB map (Python f-string E with 02d pad). -/
def eKey (i : Nat) : String :=
  "E" ++ (if i < 10 then "0" ++ natStr i else natStr i)

/-- One parsed EB row: the named fields of the Python dict in insertion order,
plus the raw positional map stored under the Raw key in the source. -/
structure EBRec where
  fields : List (String × String)
  raw : List (String × String)
deriving DecidableEq

/-- The EB record parse_271 builds from one EB segment. -/
def mkEBRec (parts : List String) : EBRec :=
  { fields :=
      [("EB01", ebElem parts 1),
       ("Coverage", lookupD EB01_MAP (ebElem parts 1)),
       ("EB02", ebElem parts 2),
       ("ServiceType", ebElem parts 3),
       ("PlanDesc", ebElem parts 4),
       ("TimePeriod", ebElem parts 5),
       ("BenefitAmt", ebElem parts 6),
       ("Percent", ebElem parts 7),
       ("QtyQual", ebElem parts 8),
       ("Qty", ebElem parts 9),
       ("AuthInd", ebElem parts 10),
       ("InPlan", ebElem parts 11),
       ("Proc", ebElem parts 12)],
    raw := (List.range' 1 13).map (fun i => (eKey i, ebElem parts i)) }

/-- The structured record returned by parse_271: the payer, provider,
subscriber, dependent, trace dicts, the eb, aaa, dtp, ref lists, the debug
metadata and the validation warnings. -/
structure ParseOut where
  payer : List (String × String)
  provider : List (String × String)
  subscriber : List (String × String)
  dependent : List (String × String)
  eb : List EBRec
  aaa : List (List (String × String))
  trace : List (String × String)
  dtp : List (List String)
  ref : List (List String)
  dbgSegTerm : Char
  dbgElemSep : Char
  dbgSegCount : Nat
  dbgFirstTags : List String
  validation : List String
deriving DecidableEq

/-- Segment index positions whose first element upper-cases to the given tag
(the list comprehensions over enumerate(segs) in validate_envelopes). -/
def idxWithTag (tag : String) (segs : List (List String)) : List Nat :=
  (segs.enum.filter (fun p => p.2 ≠ [] ∧ pyUpper (p.2.headD "") = tag)).map Prod.fst

/-- Warning text for a declared/actual segment count mismatch. -/
def seMismatchMsg (declared : Int) (actual : Nat) : String :=
  "SE01=" ++ intStr declared ++ " but counted " ++ natStr actual ++
    " segments between ST..SE."

/-- Body of one iteration of the validate_envelopes loop for the pair
(st index, se index): slice segs[si:ei+1], parse SE01 with the try/except
(IndexError or ValueError both fall to declared = 0 plus a warning), then the
mismatch warning when declared is truthy and differs from the actual count. -/
def pairWarn (segs : List (List String)) (si ei : Nat) : List String :=
  let between := (segs.drop si).take (ei + 1 - si)
  let dw : Int × List String :=
    match (segs.getD ei []).get? 1 with
    | none => (0, ["SE01 missing or not integer."])
    | some s =>
      match pyInt? s with
      | some n => (n, [])
      | none => (0, ["SE01 missing or not integer."])
  let actual := between.length
  dw.2 ++ (if dw.1 ≠ 0 ∧ dw.1 ≠ (actual : Int) then [seMismatchMsg dw.1 actual] else [])

/-- The validate_envelopes loop: the i-th ST index is paired with the i-th SE
index; an ST with no positionally matching SE yields one warning and stops. -/
def vLoop (segs : List (List String)) : List Nat → List Nat → List String
  | [], _ => []
  | _ :: _, [] => ["SE segment missing for an ST."]
  | si :: sts, ei :: ses => pairWarn segs si ei ++ vLoop segs sts ses

/-- edi_x12.py validate_envelopes. -/
def validate_envelopes (ediText : String) : List String :=
  let d := detect_delimiters ediText
  let segs := parse_segments ediText d.1 d.2.1
  vLoop segs (idxWithTag "ST" segs) (idxWithTag "SE" segs)

/-- Body of the parse_271 segment loop for one segment. -/
def processSeg (acc : ParseOut) (parts : List String) : ParseOut :=
  match parts with
  | [] => acc
  | _ :: _ =>
    let tag := pyUpper (pyStrip (ebElem parts 0))
    if tag = "NM1" then
      let ent := pyUpper (pyStrip (ebElem parts 1))
      if ent = "PR" then
        { acc with payer :=
            [("name", ebElem parts 3), ("id_qual", ebElem parts 8), ("id", ebElem parts 9)] }
      else if ent = "1P" then
        { acc with provider :=
            [("name", ebElem parts 3), ("id_qual", ebElem parts 8), ("id", ebElem parts 9)] }
      else if ent = "IL" then
        { acc with subscriber :=
            [("last", ebElem parts 3), ("first", ebElem parts 4),
             ("id_qual", ebElem parts 8), ("id", ebElem parts 9)] }
      else if ent = "QD" then
        { acc with dependent :=
            [("last", ebElem parts 3), ("first", ebElem parts 4),
             ("id_qual", ebElem parts 8), ("id", ebElem parts 9)] }
      else acc
    else if tag = "TRN" then
      { acc with trace := [("trace_type", ebElem parts 1), ("trace_num", ebElem parts 2)] }
    else if tag = "EB" then
      { acc with eb := acc.eb ++ [mkEBRec parts] }
    else if tag = "AAA" then
      { acc with aaa := acc.aaa ++
          [[("reject_code", ebElem parts 3), ("followup_action", ebElem parts 4)]] }
    else if tag = "DTP" then
      { acc with dtp := acc.dtp ++ [parts] }
    else if tag = "REF" then
      { acc with ref := acc.ref ++ [parts] }
    else acc

/-- The parse_271 segment loop over all segments. -/
def processAll (acc : ParseOut) : List (List String) → ParseOut
  | [] => acc
  | p :: r => processAll (processSeg acc p) r

/-- edi_x12.py parse_271. -/
def parse_271 (ediText : String) : ParseOut :=
  let d := detect_delimiters ediText
  let segT :=
    if ¬ pyContains (String.mk (ediText.data.take 200)) "ISA" = true ∧
        d.1 = DEFAULT_SEG ∧ countChar ediText DEFAULT_SEG < 2
    then '\n' else d.1
  let segs := parse_segments ediText segT d.2.1
  let init : ParseOut :=
    { payer := [], provider := [], subscriber := [], dependent := [],
      eb := [], aaa := [], trace := [], dtp := [], ref := [],
      dbgSegTerm := segT, dbgElemSep := d.2.1,
      dbgSegCount := segs.length,
      dbgFirstTags := (segs.take 12).map (fun s => s.headD ""),
      validation := validate_envelopes ediText }
  processAll init segs

/-- The formatted clock readings the builders obtain from datetime.utcnow()
or datetime.now(): strftime of the year-month-day forms and hour-minute. -/
structure PyNow where
  yymmdd : String
  yyyymmdd : String
  hhmm : String
deriving DecidableEq

/-- edi_x12.py Party dataclass. -/
structure Party where
  last : String
  first : String := ""
  middle : String := ""
  id_code : String := ""
  id_qual : String := "MI"
deriving DecidableEq

/-- edi_x12.py Provider dataclass. -/
structure Provider where
  name : String
  npi : String
deriving DecidableEq

/-- One payer-profile dictionary of edi_x12.py PAYER_PROFILES (fixed key set). -/
structure Profile where
  preferred_eq : List String
  require_dmg : Bool
  expect_trn : Bool
  id_qual : String
  subscriber_is_primary : Bool
  extra_ref : List String
  include_prv : Bool
  provider_taxonomy : String
  include_addresses : Bool
deriving DecidableEq

/-- PAYER_PROFILES of edi_x12.py, entry "default". -/
def defaultProfile : Profile :=
  { preferred_eq := ["30"], require_dmg := false, expect_trn := true,
    id_qual := "MI", subscriber_is_primary := true, extra_ref := [],
    include_prv := false, provider_taxonomy := "", include_addresses := false }

/-- An address dictionary with the five keys read via .get(k, ""). -/
structure Addr where
  line1 : String
  line2 : String
  city : String
  state : String
  zip : String
deriving DecidableEq

/-- Python truthiness of an optional string: present and non-empty. -/
def truthyO (o : Option String) : Bool :=
  match o with
  | none => false
  | some s => s ≠ ""

/-- Python expression o or d on an optional string: d when o is None or empty. -/
def optOrS (o : Option String) (d : String) : String :=
  match o with
  | none => d
  | some s => if s = "" then d else s

/-- Element list of the ISA segment built by edi_x12.py build_ISA.  The
source writes its ISA02 and ISA04 fields as the Python expression
(a double-quoted empty string) * 10, which is the empty string. -/
def isaFields (controlNum : Nat) (senderId receiverId : String) (now : PyNow) : List String :=
  ["ISA", "00", "", "00", "", "ZZ", ljust senderId 15, "ZZ", ljust receiverId 15,
   now.yymmdd, now.hhmm, "^", "00501", pad9 controlNum, "0", "T", ":"]

/-- edi_x12.py build_ISA. -/
def build_ISA (controlNum : Nat) (senderId receiverId : String) (now : PyNow)
    (elemT segT : Char) : String :=
  joinElems elemT (isaFields controlNum senderId receiverId now) ++ String.singleton segT

/-- edi_x12.py build_IEA. -/
def build_IEA (controlNum groupCount : Nat) (elemT segT : Char) : String :=
  joinElems elemT ["IEA", natStr groupCount, pad9 controlNum] ++ String.singleton segT

/-- edi_x12.py build_GS. -/
def build_GS (controlNum : Nat) (senderCode receiverCode : String) (now : PyNow)
    (elemT segT : Char) : String :=
  joinElems elemT
    ["GS", "HS", senderCode, receiverCode, now.yyyymmdd, now.hhmm,
     natStr controlNum, "X", "005010X279A1"] ++ String.singleton segT

/-- edi_x12.py build_GE. -/
def build_GE (controlNum txnCount : Nat) (elemT segT : Char) : String :=
  joinElems elemT ["GE", natStr txnCount, natStr controlNum] ++ String.singleton segT

/-- edi_x12.py build_ST. -/
def build_ST (controlNum : Nat) (elemT segT : Char) : String :=
  joinElems elemT ["ST", "270", pad9 controlNum] ++ String.singleton segT

/-- edi_x12.py build_SE. -/
def build_SE (controlNum segmentCount : Nat) (elemT segT : Char) : String :=
  joinElems elemT ["SE", natStr segmentCount, pad9 controlNum] ++ String.singleton segT

/-- The arguments of edi_x12.py build_270, bundled.  Optional parameters keep
their Python None default as Option none; the address dictionaries are taken
as either absent or fully keyed, matching every call site. -/
structure B270In where
  isa_ctrl : Nat
  gs_ctrl : Nat
  st_ctrl : Nat
  payer_id : String
  provider : Provider
  subscriber : Party
  dependent : Option Party
  service_types : List String
  date_start : String
  date_end : Option String := none
  profile : Option Profile := none
  trn_trace : Option String := none
  dmg_dob : Option String := none
  dmg_gender : Option String := none
  include_prv : Option Bool := none
  provider_taxonomy : Option String := none
  include_addresses : Option Bool := none
  provider_addr : Option Addr := none
  subscriber_addr : Option Addr := none
  elemT : Char := '*'
  segT : Char := '~'
deriving DecidableEq

/-- The N3/N4 address segments build_270 emits for one address dictionary. -/
def n3n4Segs (elemT segT : Char) (ad : Addr) : List String :=
  (if ad.line1 ≠ "" then
     [(if ad.line2 ≠ "" then joinElems elemT ["N3", ad.line1, ad.line2]
       else joinElems elemT ["N3", ad.line1]) ++ String.singleton segT]
   else [])
  ++ (if ad.city ≠ "" ∨ ad.state ≠ "" ∨ ad.zip ≠ "" then
        [joinElems elemT ["N4", ad.city, ad.state, ad.zip] ++ String.singleton segT]
      else [])

/-- edi_x12.py build_270. -/
def build_270 (a : B270In) (now : PyNow) : String :=
  let prof := a.profile.getD defaultProfile
  let includePrv := a.include_prv.getD prof.include_prv
  let ptax := optOrS a.provider_taxonomy prof.provider_taxonomy
  let includeAddresses := a.include_addresses.getD prof.include_addresses
  let e := a.elemT
  let s := String.singleton a.segT
  let segs : List String :=
    [build_ISA a.isa_ctrl "SENDERID" "RECEIVERID" now e a.segT,
     build_GS a.gs_ctrl "SENDER" "RECEIVER" now e a.segT,
     build_ST a.st_ctrl e a.segT,
     joinElems e ["BHT", "0022", "13", "CN" ++ natStr a.st_ctrl, now.yyyymmdd, now.hhmm] ++ s,
     joinElems e ["HL", "1", "", "20", "1"] ++ s,
     joinElems e ["NM1", "PR", "2", "PAYER NAME", "", "", "", "PI", a.payer_id] ++ s,
     joinElems e ["HL", "2", "1", "21", "1"] ++ s,
     joinElems e ["NM1", "1P", "2", a.provider.name, "", "", "", "XX", a.provider.npi] ++ s]
    ++ (if includePrv = true ∧ ptax ≠ "" then
          [joinElems e ["PRV", "PE", "PXC", ptax] ++ s] else [])
    ++ (match includeAddresses, a.provider_addr with
        | true, some ad => n3n4Segs e a.segT ad
        | _, _ => [])
    ++ prof.extra_ref.map (fun r => joinElems e ["REF", r, "PLACEHOLDER"] ++ s)
    ++ [joinElems e ["HL", "3", "2", "22", if a.dependent.isSome then "1" else "0"] ++ s,
        joinElems e
          ["NM1", "IL", "1", a.subscriber.last, a.subscriber.first, a.subscriber.middle,
           "", prof.id_qual, a.subscriber.id_code] ++ s]
    ++ (if prof.expect_trn = true ∧ truthyO a.trn_trace = true then
          [joinElems e ["TRN", "2", a.trn_trace.getD ""] ++ s] else [])
    ++ (match includeAddresses, a.subscriber_addr with
        | true, some ad => n3n4Segs e a.segT ad
        | _, _ => [])
    ++ (if prof.require_dmg = true ∨ truthyO a.dmg_dob = true ∨ truthyO a.dmg_gender = true then
          [joinElems e ["DMG", "D8", optOrS a.dmg_dob "19000101", optOrS a.dmg_gender "U"] ++ s]
        else [])
    ++ (if truthyO a.date_end = true then
          [joinElems e ["DTP", "291", "RD8", a.date_start ++ "-" ++ a.date_end.getD ""] ++ s]
        else [joinElems e ["DTP", "291", "D8", a.date_start] ++ s])
    ++ (match a.dependent with
        | some dep =>
          [joinElems e ["HL", "4", "3", "23", "0"] ++ s,
           joinElems e
             ["NM1", "QD", "1", dep.last, dep.first, dep.middle, "", prof.id_qual, dep.id_code] ++ s]
        | none => [])
    ++ ((if a.service_types ≠ [] then a.service_types else prof.preferred_eq).map
          (fun stc => joinElems e ["EQ", stc] ++ s))
  let segCount := countChar (concatAll (segs.drop 2)) a.segT + 1
  concatAll (segs ++
    [build_SE a.st_ctrl segCount e a.segT,
     build_GE a.gs_ctrl 1 e a.segT,
     build_IEA a.isa_ctrl 1 e a.segT])

/-- edi_835.py build_835, one list entry per Python concatenation line; the SE
line is a plain (non-formatted) string literal in the source. -/
def build_835_lines (isa_ctrl gs_ctrl st_ctrl : Nat)
    (payer_name payer_id provider_npi claim_id patient_name paid_amount
     check_number payment_date : String) (now : PyNow) : List String :=
    ["ISA*00*          *00*          *ZZ*" ++ ljust payer_id 15 ++
       "*ZZ*RECEIVERID     *" ++ now.yymmdd ++ "*" ++ now.hhmm ++ "*^*00501*" ++
       pad9 isa_ctrl ++ "*0*T*:~\n",
     "GS*HP*" ++ payer_id ++ "*RECEIVER*" ++ now.yyyymmdd ++ "*" ++ now.hhmm ++ "*" ++
       natStr gs_ctrl ++ "*X*005010X221A1~\n",
     "ST*835*" ++ natStr st_ctrl ++ "*005010X221A1~\n",
     "BPR*I*" ++ paid_amount ++ "*C*CHK*01*999999999*DA*123456789*" ++ now.yyyymmdd ++ "~\n",
     "TRN*1*" ++ check_number ++ "*" ++ payer_id ++ "~\n",
     "DTM*405*" ++ payment_date ++ "~\n",
     "N1*PR*" ++ payer_name ++ "*PI*" ++ payer_id ++ "~\n",
     "N1*PE*BUDDHA CLINIC*XX*" ++ provider_npi ++ "~\n",
     "CLP*" ++ claim_id ++ "*1*150*" ++ paid_amount ++ "**MC*" ++ patient_name ++ "*12*1~\n",
     "CAS*CO*45*50~\n",
     "NM1*QC*1*" ++ patient_name ++ "****MI*123456789~\n",
     "DTM*232*" ++ payment_date ++ "~\n",
     "DTM*233*" ++ payment_date ++ "~\n",
     "SE*12*\x7bst_ctrl\x7d~\n",
     "GE*1*" ++ natStr gs_ctrl ++ "~\n",
     "IEA*1*" ++ pad9 isa_ctrl ++ "~"]

/-- edi_835.py build_835: the concatenation of its lines. -/
def build_835 (isa_ctrl gs_ctrl st_ctrl : Nat)
    (payer_name payer_id provider_npi claim_id patient_name paid_amount
     check_number payment_date : String) (now : PyNow) : String :=
  concatAll (build_835_lines isa_ctrl gs_ctrl st_ctrl payer_name payer_id
    provider_npi claim_id patient_name paid_amount check_number payment_date now)

/-- edi_837.py build_837, one list entry per Python concatenation line; the SE
line is a plain (non-formatted) string literal in the source. -/
def build_837_lines (isa_ctrl gs_ctrl st_ctrl : Nat)
    (sender_id receiver_id billing_provider_npi patient_name patient_id
     claim_id claim_amount dos_start : String) (dos_end : Option String)
    (now : PyNow) : List String :=
  let dos_segment :=
    if truthyO dos_end = false then "DTP*472*D8*" ++ dos_start ++ "~"
    else "DTP*472*RD8*" ++ dos_start ++ "-" ++ dos_end.getD "" ++ "~"
  ["ISA*00*          *00*          *ZZ*" ++ ljust sender_id 15 ++ "*ZZ*" ++
       ljust receiver_id 15 ++ "*" ++ now.yymmdd ++ "*" ++ now.hhmm ++ "*^*00501*" ++
       pad9 isa_ctrl ++ "*0*T*:~\n",
     "GS*HC*" ++ sender_id ++ "*" ++ receiver_id ++ "*" ++ now.yyyymmdd ++ "*" ++
       now.hhmm ++ "*" ++ natStr gs_ctrl ++ "*X*005010X222A1~\n",
     "ST*837*" ++ natStr st_ctrl ++ "*005010X222A1~\n",
     "BHT*0019*00*" ++ claim_id ++ "*" ++ now.yyyymmdd ++ "*" ++ now.hhmm ++ "*CH~\n",
     "NM1*41*2*BILLING PROVIDER*****46*12345~\n",
     "PER*IC*BILLING OFFICE*TE*8005551212~\n",
     "NM1*40*2*PAYER NAME*****46*99999~\n",
     "HL*1**20*1~\n",
     "NM1*85*2*BUDDHA CLINIC*****XX*" ++ billing_provider_npi ++ "~\n",
     "N3*123 MAIN STREET~\nN4*LUCKNOW*UP*226001~\n",
     "REF*EI*123456789~\n",
     "HL*2*1*22*0~\n",
     "NM1*IL*1*" ++ patient_name ++ "****MI*" ++ patient_id ++ "~\n",
     dos_segment,
     "CLM*" ++ claim_id ++ "*" ++ claim_amount ++ "***11:B:1*Y*A*Y*I~\n",
     "HI*BK:12345~\n",
     "LX*1~\n",
     "SV1*HC:99213*100*UN*1***1~\n",
     "SE*20*\x7bst_ctrl\x7d~\n",
     "GE*1*" ++ natStr gs_ctrl ++ "~\n",
     "IEA*1*" ++ pad9 isa_ctrl ++ "~"]

/-- edi_837.py build_837: the concatenation of its lines. -/
def build_837 (isa_ctrl gs_ctrl st_ctrl : Nat)
    (sender_id receiver_id billing_provider_npi patient_name patient_id
     claim_id claim_amount dos_start : String) (dos_end : Option String)
    (now : PyNow) : String :=
  concatAll (build_837_lines isa_ctrl gs_ctrl st_ctrl sender_id receiver_id
    billing_provider_npi patient_name patient_id claim_id claim_amount
    dos_start dos_end now)

/-- claim_status_app.py build_276. -/
def build_276 (isa_ctrl gs_ctrl st_ctrl : Nat)
    (payer_id provider_name provider_npi subscriber_last subscriber_first
     subscriber_id : String) (claim_control_number : String)
    (date_of_service : Option String) (now : PyNow) : String :=
  let dos := optOrS date_of_service now.yyyymmdd
  concatAll
    ["ISA*00*          *00*          *ZZ*SENDERID       *ZZ*RECEIVERID     *" ++
       now.yymmdd ++ "*" ++ now.hhmm ++ "*^*00501*" ++ pad9 isa_ctrl ++ "*0*T*:~\n",
     "GS*HN*SENDER*RECEIVER*" ++ now.yyyymmdd ++ "*" ++ now.hhmm ++ "*" ++
       natStr gs_ctrl ++ "*X*005010X212~\n",
     "ST*276*" ++ natStr st_ctrl ++ "*005010X212~\n",
     "BHT*0010*13*" ++
       (if claim_control_number ≠ "" then claim_control_number else natStr st_ctrl) ++
       "*" ++ now.yyyymmdd ++ "*" ++ now.hhmm ++ "~\n",
     "HL*1**20*1~\n",
     "NM1*PR*2*PAYER NAME****PI*" ++ payer_id ++ "~\n",
     "HL*2*1*21*1~\n",
     "NM1*41*2*" ++ provider_name ++ "*****XX*" ++ provider_npi ++ "~\n",
     "HL*3*2*19*0~\n",
     "NM1*IL*1*" ++ subscriber_last ++ "*" ++ subscriber_first ++ "****MI*" ++
       subscriber_id ++ "~\n",
     "DTP*472*D8*" ++ dos ++ "~\n",
     "SE*12*" ++ natStr st_ctrl ++ "~\n",
     "GE*1*" ++ natStr gs_ctrl ++ "~\n",
     "IEA*1*" ++ pad9 isa_ctrl ++ "~"]

/-- Raw Python list indexing parts[i]: an IndexError (modelled as error) when
the index is out of range. -/
def getE (parts : List String) (i : Nat) : Except Unit String :=
  match parts.get? i with
  | some v => Except.ok v
  | none => Except.error ()

/-- The guarded access parts[i] if len(parts) > i else "" with the raw
indexing made explicit, to show the guard shields every access. -/
def guardE (parts : List String) (i : Nat) : Except Unit String :=
  if i < parts.length then getE parts i else Except.ok ""

/-- Raw Python string indexing text[i]. -/
def getCharE (l : List Char) (i : Nat) : Except Unit Char :=
  match l.get? i with
  | some c => Except.ok c
  | none => Except.error ()

/-- detect_delimiters with its raw string indexing made explicit. -/
def detect_delimitersE (ediText : String) : Except Unit (Char × Char × Char) := do
  let seg0 := DEFAULT_SEG
  let elem0 := DEFAULT_ELEM
  let comp0 := DEFAULT_SUBELEM
  let triple ←
    if pyStartsWith ediText "ISA" = true ∧ 106 ≤ ediText.length then do
      let elem ← getCharE ediText.data 3
      let comp ← if 104 < ediText.length then getCharE ediText.data 104 else pure comp0
      let seg ← if 105 < ediText.length then getCharE ediText.data 105 else pure seg0
      pure (seg, elem, comp)
    else pure (seg0, elem0, comp0)
  let seg :=
    if countChar ediText triple.1 < 2 ∧ 2 ≤ countChar ediText '\n' then '\n' else triple.1
  return (seg, triple.2.1, triple.2.2)

/-- mkEBRec with each of the thirteen guarded element accesses made explicit. -/
def mkEBRecE (parts : List String) : Except Unit EBRec := do
  let e1 ← guardE parts 1
  let e2 ← guardE parts 2
  let e3 ← guardE parts 3
  let e4 ← guardE parts 4
  let e5 ← guardE parts 5
  let e6 ← guardE parts 6
  let e7 ← guardE parts 7
  let e8 ← guardE parts 8
  let e9 ← guardE parts 9
  let e10 ← guardE parts 10
  let e11 ← guardE parts 11
  let e12 ← guardE parts 12
  let e13 ← guardE parts 13
  return { fields :=
             [("EB01", e1), ("Coverage", lookupD EB01_MAP e1), ("EB02", e2),
              ("ServiceType", e3), ("PlanDesc", e4), ("TimePeriod", e5),
              ("BenefitAmt", e6), ("Percent", e7), ("QtyQual", e8), ("Qty", e9),
              ("AuthInd", e10), ("InPlan", e11), ("Proc", e12)]
           raw :=
             [(eKey 1, e1), (eKey 2, e2), (eKey 3, e3), (eKey 4, e4), (eKey 5, e5),
              (eKey 6, e6), (eKey 7, e7), (eKey 8, e8), (eKey 9, e9), (eKey 10, e10),
              (eKey 11, e11), (eKey 12, e12), (eKey 13, e13)] }

/-- The parse_271 loop body with every element access made explicit. -/
def processSegE (acc : ParseOut) (parts : List String) : Except Unit ParseOut :=
  match parts with
  | [] => Except.ok acc
  | _ :: _ => do
    let p0 ← getE parts 0
    let tag := pyUpper (pyStrip p0)
    if tag = "NM1" then do
      let entRaw ← guardE parts 1
      let ent := pyUpper (pyStrip entRaw)
      if ent = "PR" then do
        let n ← guardE parts 3
        let q ← guardE parts 8
        let i ← guardE parts 9
        return { acc with payer := [("name", n), ("id_qual", q), ("id", i)] }
      else if ent = "1P" then do
        let n ← guardE parts 3
        let q ← guardE parts 8
        let i ← guardE parts 9
        return { acc with provider := [("name", n), ("id_qual", q), ("id", i)] }
      else if ent = "IL" then do
        let l ← guardE parts 3
        let f ← guardE parts 4
        let q ← guardE parts 8
        let i ← guardE parts 9
        return { acc with subscriber := [("last", l), ("first", f), ("id_qual", q), ("id", i)] }
      else if ent = "QD" then do
        let l ← guardE parts 3
        let f ← guardE parts 4
        let q ← guardE parts 8
        let i ← guardE parts 9
        return { acc with dependent := [("last", l), ("first", f), ("id_qual", q), ("id", i)] }
      else return acc
    else if tag = "TRN" then do
      let t1 ← guardE parts 1
      let t2 ← guardE parts 2
      return { acc with trace := [("trace_type", t1), ("trace_num", t2)] }
    else if tag = "EB" then do
      let rec ← mkEBRecE parts
      return { acc with eb := acc.eb ++ [rec] }
    else if tag = "AAA" then do
      let rc ← guardE parts 3
      let fa ← guardE parts 4
      return { acc with aaa := acc.aaa ++ [[("reject_code", rc), ("followup_action", fa)]] }
    else if tag = "DTP" then
      return { acc with dtp := acc.dtp ++ [parts] }
    else if tag = "REF" then
      return { acc with ref := acc.ref ++ [parts] }
    else return acc

/-- The parse_271 loop with explicit accesses. -/
def processAllE (acc : ParseOut) : List (List String) → Except Unit ParseOut
  | [] => Except.ok acc
  | p :: r => do processAllE (← processSegE acc p) r

/-- parse_271 with every raw element and character access made explicit; the
int() call inside validate_envelopes sits under the source's try/except and is
therefore already total in the plain embedding. -/
def parse_271E (ediText : String) : Except Unit ParseOut := do
  let d ← detect_delimitersE ediText
  let segT :=
    if ¬ pyContains (String.mk (ediText.data.take 200)) "ISA" = true ∧
        d.1 = DEFAULT_SEG ∧ countChar ediText DEFAULT_SEG < 2
    then '\n' else d.1
  let segs := parse_segments ediText segT d.2.1
  let init : ParseOut :=
    { payer := [], provider := [], subscriber := [], dependent := [],
      eb := [], aaa := [], trace := [], dtp := [], ref := [],
      dbgSegTerm := segT, dbgElemSep := d.2.1,
      dbgSegCount := segs.length,
      dbgFirstTags := (segs.take 12).map (fun s => s.headD ""),
      validation := validate_envelopes ediText }
  processAllE init segs

/-- Fixed clock reading used in the concrete evaluations. -/
def cnow : PyNow := { yymmdd := "250101", yyyymmdd := "20250101", hhmm := "1200" }

/-- A second, different clock reading. -/
def cnow2 : PyNow := { yymmdd := "250102", yyyymmdd := "20250102", hhmm := "1300" }

/-- The context-tagging scenario document of the specification. -/
def c1doc : String := "HL*1**20*1~NM1*PR*2*ACME~HL*2*1*23*0~NM1*QD*1*SMITH~EB*1~"

/-- The EB row parse_271 produces for the context-tagging scenario document. -/
def c1rec : EBRec :=
  { fields :=
      [("EB01", "1"), ("Coverage", "Active Coverage"), ("EB02", ""),
       ("ServiceType", ""), ("PlanDesc", ""), ("TimePeriod", ""),
       ("BenefitAmt", ""), ("Percent", ""), ("QtyQual", ""), ("Qty", ""),
       ("AuthInd", ""), ("InPlan", ""), ("Proc", "")],
    raw :=
      [("E01", "1"), ("E02", ""), ("E03", ""), ("E04", ""), ("E05", ""),
       ("E06", ""), ("E07", ""), ("E08", ""), ("E09", ""), ("E10", ""),
       ("E11", ""), ("E12", ""), ("E13", "")] }

/-- A 270 request with a dependent whose id_code is empty (the no-blank-ID
scenario), otherwise the defaults the UI layer uses. -/
def c4args : B270In :=
  { isa_ctrl := 1, gs_ctrl := 1, st_ctrl := 1, payer_id := "12345",
    provider := { name := "BUDDHA CLINIC", npi := "1234567890" },
    subscriber := { last := "DOE", first := "JOHN", id_code := "W123456789" },
    dependent := some { last := "CHILD" },
    service_types := ["30"], date_start := "20250101" }

/-- A concrete 837 build: build_837(1, 1, 1, SENDER, RECEIVER, 1234567890,
DOE JOHN, W1, CLM1, 100, 20250101) at the fixed clock. -/
def c2doc837 : String :=
  build_837 1 1 1 "SENDER" "RECEIVER" "1234567890" "DOE JOHN" "W1" "CLM1" "100"
    "20250101" none cnow

/-- A concrete 276 build: build_276(1, 1, 1000, 12345, Buddha Clinic,
1234567890, DOE, JOHN, W123456789, "", 20250101) at the fixed clock. -/
def c2doc276 : String :=
  build_276 1 1 1000 "12345" "Buddha Clinic" "1234567890" "DOE" "JOHN"
    "W123456789" "" (some "20250101") cnow

/-- A concrete 835 build at the fixed clock. -/
def c2doc835 : String :=
  build_835 1 1 1 "ACME" "12345" "1234567890" "CLM1" "DOE JOHN" "100" "CHK9"
    "20250101" cnow

/-- The newline-fallback scenario document of the specification: two literal
tildes and a single embedded newline. -/
def c8doc : String := "ST*270*0001~\nSE*12*0001~"

/-- A document whose SE01 parses to the integer 0 while the ST..SE span holds
2 segments. -/
def c5doc : String := "ST*270*0001~SE*0*0001~"

theorem except_bind_ok {α β : Type} (a : α) (f : α → Except Unit β) :
    (Except.ok a >>= f : Except Unit β) = f a := rfl

theorem except_pure {α : Type} (a : α) : (pure a : Except Unit α) = Except.ok a := rfl

theorem guardE_eq (parts : List String) (i : Nat) :
    guardE parts i = Except.ok (ebElem parts i) := by
  unfold guardE getE ebElem
  by_cases h : i < parts.length
  · rw [if_pos h]
    cases hg : parts.get? i with
    | none => exact absurd (List.get?_eq_none.mp hg) (by omega)
    | some v => simp [hg]
  · rw [if_neg h, List.get?_eq_none.mpr (by omega)]
    rfl

theorem getCharE_eq (l : List Char) (i : Nat) (c : Char) (h : i < l.length) :
    getCharE l i = Except.ok (l.getD i c) := by
  unfold getCharE
  cases hg : l.get? i with
  | none => exact absurd (List.get?_eq_none.mp hg) (by omega)
  | some v => simp [List.getD, ← List.get?_eq_getElem?, hg]

theorem detect_delimitersE_eq (t : String) :
    detect_delimitersE t = Except.ok (detect_delimiters t) := by
  by_cases h : pyStartsWith t "ISA" = true ∧ 106 ≤ t.length
  · have hd : 106 ≤ t.data.length := h.2
    have h104 : 104 < t.length := by
      show 104 < t.data.length
      omega
    have h105 : 105 < t.length := by
      show 105 < t.data.length
      omega
    have g3 := getCharE_eq t.data 3 DEFAULT_ELEM (by omega)
    have g104 := getCharE_eq t.data 104 DEFAULT_SUBELEM (by omega)
    have g105 := getCharE_eq t.data 105 DEFAULT_SEG (by omega)
    simp [detect_delimitersE, detect_delimiters, h, h104, h105, g3, g104, g105,
      except_bind_ok, except_pure]
  · simp [detect_delimitersE, detect_delimiters, h, except_pure, Bind.bind, Except.bind]

theorem mkEBRecE_eq (parts : List String) :
    mkEBRecE parts = Except.ok (mkEBRec parts) := by
  simp [mkEBRecE, mkEBRec, guardE_eq, except_bind_ok, except_pure, List.range',
    Bind.bind, Except.bind, eKey]

theorem processSegE_eq (acc : ParseOut) (parts : List String) :
    processSegE acc parts = Except.ok (processSeg acc parts) := by
  cases parts with
  | nil => rfl
  | cons a l =>
    simp only [processSegE, processSeg]
    have g0 : getE (a :: l) 0 = Except.ok (ebElem (a :: l) 0) := rfl
    simp [g0, guardE_eq, mkEBRecE_eq, except_bind_ok, except_pure, Bind.bind, Except.bind]
    split_ifs <;> rfl

theorem processAllE_eq (l : List (List String)) :
    ∀ acc, processAllE acc l = Except.ok (processAll acc l) := by
  induction l with
  | nil => intro acc; rfl
  | cons p r ih =>
    intro acc
    simp [processAllE, processAll, processSegE_eq, except_bind_ok, ih,
      Bind.bind, Except.bind]

theorem parse_271E_eq (s : String) : parse_271E s = Except.ok (parse_271 s) := by
  simp [parse_271E, parse_271, detect_delimitersE_eq, processAllE_eq,
    except_bind_ok, Bind.bind, Except.bind]

theorem processSeg_eb (acc : ParseOut) (parts : List String) :
    (processSeg acc parts).eb = acc.eb ∨
      ∃ ps, (processSeg acc parts).eb = acc.eb ++ [mkEBRec ps] := by
  cases parts with
  | nil => left; rfl
  | cons a l =>
    simp only [processSeg]
    split_ifs <;> first
      | (left; rfl)
      | (right; exact ⟨a :: l, rfl⟩)

theorem processAll_eb (P : EBRec → Prop) (hmk : ∀ ps, P (mkEBRec ps)) :
    ∀ (l : List (List String)) (acc : ParseOut), (∀ r ∈ acc.eb, P r) →
      ∀ r ∈ (processAll acc l).eb, P r := by
  intro l
  induction l with
  | nil => intro acc h r hr; exact h r hr
  | cons p t ih =>
    intro acc h r hr
    simp only [processAll] at hr
    refine ih (processSeg acc p) ?_ r hr
    intro q hq
    rcases processSeg_eb acc p with he | ⟨ps, he⟩
    · exact h q (he ▸ hq)
    · rw [he] at hq
      rcases List.mem_append.mp hq with h1 | h2
      · exact h q h1
      · rw [List.mem_singleton.mp h2]
        exact hmk ps

theorem parse_271_eb_shape (doc : String) :
    ∀ r ∈ (parse_271 doc).eb, ∃ ps, r = mkEBRec ps := by
  intro r hr
  simp only [parse_271] at hr
  refine processAll_eb (fun q => ∃ ps, q = mkEBRec ps) (fun ps => ⟨ps, rfl⟩) _ _ ?_ r hr
  intro q hq
  simp at hq

theorem lookup_context_mk (ps : List String) :
    List.lookup "context" (mkEBRec ps).fields = none := rfl

theorem lookup_eb01_mk (ps : List String) :
    List.lookup "EB01" (mkEBRec ps).fields = some (ebElem ps 1) := rfl

theorem lookup_cov_mk (ps : List String) :
    List.lookup "Coverage" (mkEBRec ps).fields =
      some (lookupD EB01_MAP (ebElem ps 1)) := rfl

theorem digitChar_isDigit {k : Nat} (h : k < 10) : (digitChar k).isDigit = true := by
  interval_cases k <;> decide

theorem natDigitsAux_digits :
    ∀ fuel n c, c ∈ natDigitsAux fuel n → c.isDigit = true := by
  intro fuel
  induction fuel with
  | zero => intro n c hc; simp [natDigitsAux] at hc
  | succ f ih =>
    intro n c hc
    simp only [natDigitsAux] at hc
    by_cases h : n < 10
    · rw [if_pos h] at hc
      rw [List.mem_singleton.mp hc]
      exact digitChar_isDigit h
    · rw [if_neg h] at hc
      rcases List.mem_append.mp hc with h1 | h2
      · exact ih (n / 10) c h1
      · rw [List.mem_singleton.mp h2]
        exact digitChar_isDigit (Nat.mod_lt n (by norm_num))

theorem natStr_digits (n : Nat) : ∀ c ∈ (natStr n).data, c.isDigit = true :=
  fun c hc => natDigitsAux_digits (n + 1) n c hc

theorem natStr_ne_sectrl (n : Nat) : natStr n ≠ "\x7bst_ctrl\x7d" := by
  intro h
  have hd : (natStr n).data = ("\x7bst_ctrl\x7d" : String).data := congrArg String.data h
  have hm : '\x7b' ∈ (natStr n).data := by
    rw [hd]; decide
  exact absurd (natStr_digits n '\x7b' hm) (by decide)

theorem natDigitsAux_length_le :
    ∀ (fuel n k : Nat), 1 ≤ k → n < 10 ^ k → (natDigitsAux fuel n).length ≤ k := by
  intro fuel
  induction fuel with
  | zero => intro n k h1 h2; simp [natDigitsAux]
  | succ f ih =>
    intro n k h1 h2
    simp only [natDigitsAux]
    by_cases h : n < 10
    · rw [if_pos h]; simpa using h1
    · rw [if_neg h]
      have hk2 : 2 ≤ k := by
        by_contra hlt
        have hk1 : k = 1 := by omega
        subst hk1
        simp only [pow_one] at h2
        omega
      have hpow : 10 ^ (k - 1) * 10 = 10 ^ k := by
        conv_rhs => rw [show k = (k - 1) + 1 by omega]
        rw [pow_succ]
      have hdiv : n / 10 < 10 ^ (k - 1) := by
        rw [Nat.div_lt_iff_lt_mul (by norm_num)]
        omega
      have := ih (n / 10) (k - 1) (by omega) hdiv
      simp only [List.length_append, List.length_singleton]
      omega

theorem pad9_length {n : Nat} (h : n < 1000000000) : (pad9 n).length = 9 := by
  have hle : (natStr n).length ≤ 9 := by
    have h10 : (10 : Nat) ^ 9 = 1000000000 := by norm_num
    exact natDigitsAux_length_le (n + 1) n 9 (by omega) (by omega)
  simp only [pad9]
  by_cases hlt : (natStr n).length < 9
  · rw [if_pos hlt]
    have hrep : (String.mk (List.replicate (9 - (natStr n).length) '0')).length =
        9 - (natStr n).length := by
      show (List.replicate (9 - (natStr n).length) '0').length = _
      exact List.length_replicate _ _
    rw [String.length_append, hrep]
    omega
  · rw [if_neg hlt]
    omega

theorem concatAll_split (xs : List String) (y : String) (zs : List String) :
    concatAll (xs ++ y :: zs) = concatAll xs ++ (y ++ concatAll zs) := by
  induction xs with
  | nil => rfl
  | cons x xt ih =>
    show x ++ concatAll (xt ++ y :: zs) = x ++ concatAll xt ++ (y ++ concatAll zs)
    rw [ih, String.append_assoc]

theorem vLoop_zip (segs : List (List String)) :
    ∀ (sts ses : List Nat),
      vLoop segs sts ses =
        ((sts.zip ses).map (fun p => pairWarn segs p.1 p.2)).flatten ++
          (if ses.length < sts.length then ["SE segment missing for an ST."] else []) := by
  intro sts
  induction sts with
  | nil => intro ses; simp [vLoop]
  | cons s t ih =>
    intro ses
    cases ses with
    | nil => simp [vLoop]
    | cons e es =>
      simp only [vLoop, ih es, List.zip_cons_cons, List.map_cons, List.flatten,
        List.length_cons, String.append_assoc, List.append_assoc]
      simp only [Nat.succ_lt_succ_iff, List.zip]

theorem pairWarn_parsed (segs : List (List String)) (si ei : Nat) (s : String) (n : Int)
    (h1 : (segs.getD ei []).get? 1 = some s) (h2 : pyInt? s = some n) :
    pairWarn segs si ei =
      if n ≠ 0 ∧ n ≠ (((segs.drop si).take (ei + 1 - si)).length : Int)
      then [seMismatchMsg n ((segs.drop si).take (ei + 1 - si)).length] else [] := by
  simp only [pairWarn, h1, h2]
  simp

theorem pairWarn_bad (segs : List (List String)) (si ei : Nat)
    (h : (segs.getD ei []).get? 1 = none ∨
      ∃ s, (segs.getD ei []).get? 1 = some s ∧ pyInt? s = none) :
    pairWarn segs si ei = ["SE01 missing or not integer."] := by
  rcases h with h1 | ⟨s, h1, h2⟩
  · simp only [pairWarn, h1]
    simp
  · simp only [pairWarn, h1, h2]
    simp

theorem lookupD_unknown (code : String) (h : code ∉ (["1", "6", "7", "8", "I", "F"] : List String)) :
    lookupD EB01_MAP code = "" := by
  simp only [List.mem_cons, not_or] at h
  obtain ⟨h1, h2, h3, h4, h5, h6, -⟩ := h
  simp [lookupD, EB01_MAP, List.lookup, beq_eq_false_iff_ne.mpr h1,
    beq_eq_false_iff_ne.mpr h2, beq_eq_false_iff_ne.mpr h3,
    beq_eq_false_iff_ne.mpr h4, beq_eq_false_iff_ne.mpr h5,
    beq_eq_false_iff_ne.mpr h6]

theorem isa_joined_length (ctrl : Nat) (now : PyNow) (hc : ctrl < 1000000000)
    (h6 : now.yymmdd.length = 6) (h4 : now.hhmm.length = 4) :
    (joinElems '*' (isaFields ctrl "SENDERID" "RECEIVERID" now)).length = 85 := by
  have e1 : ("ISA" : String).length = 3 := rfl
  have e2 : ("00" : String).length = 2 := rfl
  have e3 : ("" : String).length = 0 := rfl
  have e4 : ("ZZ" : String).length = 2 := rfl
  have e5 : (String.singleton '*').length = 1 := rfl
  have e6 : (ljust "SENDERID" 15).length = 15 := rfl
  have e7 : (ljust "RECEIVERID" 15).length = 15 := rfl
  have e8 : ("^" : String).length = 1 := rfl
  have e9 : ("00501" : String).length = 5 := rfl
  have e10 : ("0" : String).length = 1 := rfl
  have e11 : ("T" : String).length = 1 := rfl
  have e12 : (":" : String).length = 1 := rfl
  simp only [isaFields, joinElems, String.length_append, e1, e2, e3, e4, e5, e6,
    e7, e8, e9, e10, e11, e12, h6, h4, pad9_length hc]

/-- C1 counterexample: for the specification's own context-tagging scenario
document, the single parsed EB row carries no context key at all, so it is not
tagged with context dependent (nor with any context). -/
theorem C1_context_tag_missing :
    (parse_271 c1doc).eb.map (fun r => List.lookup "context" r.fields) = [none] ∧
    ¬ (parse_271 c1doc).eb.map (fun r => List.lookup "context" r.fields) =
        [some "dependent"] := by
  constructor
  · decide
  · decide

/-- C1 amended: parse_271 performs no HL-driven context tracking; EB rows never
carry a context key for any input document, and on the scenario document the EB
segment is parsed into the single flat eb list as an untagged row. -/
theorem C1_flat_untagged_rows :
    (∀ doc r, r ∈ (parse_271 doc).eb → List.lookup "context" r.fields = none) ∧
    (parse_271 c1doc).eb = [c1rec] := by
  constructor
  · intro doc r hr
    obtain ⟨ps, rfl⟩ := parse_271_eb_shape doc r hr
    exact lookup_context_mk ps
  · decide

/-- C1 witness: the amended theorem applied to the scenario document and its
concrete EB row. -/
theorem C1_flat_untagged_rows_witness :
    List.lookup "context" c1rec.fields = none :=
  C1_flat_untagged_rows.1 c1doc c1rec
    (by rw [C1_flat_untagged_rows.2]; exact List.mem_singleton.mpr rfl)

/-- C2: the envelope validator does not report zero warnings on every builder
output: build_837 declares SE01=20 while emitting 18 segments from ST through
SE, and build_276 declares SE01=12 while emitting 10; build_835 passes. -/
theorem C2_builder_envelope_mismatch :
    validate_envelopes c2doc837 = ["SE01=20 but counted 18 segments between ST..SE."] ∧
    validate_envelopes c2doc276 = ["SE01=12 but counted 10 segments between ST..SE."] ∧
    validate_envelopes c2doc835 = [] := by
  refine ⟨?_, ?_, ?_⟩
  · decide
  · decide
  · decide

/-- C4: with a dependent whose id_code is empty, build_270 still emits the
dependent NM1 segment ending in the non-empty qualifier MI followed by a blank
identifier element, contradicting the documented no-blank-ID behaviour. -/
theorem C4_blank_dependent_qualifier :
    (parse_segments (build_270 c4args cnow) '~' '*').filter
        (fun p => ebElem p 1 = "QD") =
      [["NM1", "QD", "1", "CHILD", "", "", "", "MI", ""]] := by
  decide

/-- C3: parse_271 is total: for every input string the version with explicit
raw index accesses returns the same structured record without reaching any
IndexError, and degenerate inputs (the empty string, a single character)
yield records whose entity mappings and row lists are all empty. -/
theorem C3_parse_271_total :
    (∀ s, parse_271E s = Except.ok (parse_271 s)) ∧
    parse_271 "" =
      { payer := [], provider := [], subscriber := [], dependent := [],
        eb := [], aaa := [], trace := [], dtp := [], ref := [],
        dbgSegTerm := '\n', dbgElemSep := '*', dbgSegCount := 0,
        dbgFirstTags := [], validation := [] } ∧
    parse_271 "x" =
      { payer := [], provider := [], subscriber := [], dependent := [],
        eb := [], aaa := [], trace := [], dtp := [], ref := [],
        dbgSegTerm := '\n', dbgElemSep := '*', dbgSegCount := 1,
        dbgFirstTags := ["x"], validation := [] } := by
  refine ⟨parse_271E_eq, ?_, ?_⟩
  · decide
  · decide

/-- C5 counterexample: on a document whose SE01 is the integer 0 while the
ST..SE span holds 2 segments, validate_envelopes returns no warning at all,
because the mismatch branch first tests the declared count for truthiness. -/
theorem C5_zero_se01_no_warning :
    validate_envelopes c5doc = [] ∧
    parse_segments c5doc '~' '*' = [["ST", "270", "0001"], ["SE", "0", "0001"]] ∧
    pyInt? "0" = some 0 ∧ (0 : Int) ≠ 2 := by
  refine ⟨by decide, by decide, by decide, by decide⟩

/-- C5 amended: validate_envelopes pairs the i-th ST with the i-th SE (zip by
list position, one missing-SE warning when STs outnumber SEs); for a pair
whose SE01 parses to an integer n, the mismatch warning appears exactly when n
is non-zero and differs from the ST..SE inclusive segment count, and a missing
or non-integer SE01 yields the dedicated warning. -/
theorem C5_validator_pairing :
    (∀ t, validate_envelopes t =
      vLoop (parse_segments t (detect_delimiters t).1 (detect_delimiters t).2.1)
        (idxWithTag "ST" (parse_segments t (detect_delimiters t).1 (detect_delimiters t).2.1))
        (idxWithTag "SE" (parse_segments t (detect_delimiters t).1 (detect_delimiters t).2.1))) ∧
    (∀ segs sts ses, vLoop segs sts ses =
      ((sts.zip ses).map (fun p => pairWarn segs p.1 p.2)).flatten ++
        (if ses.length < sts.length then ["SE segment missing for an ST."] else [])) ∧
    (∀ segs si ei s n, (segs.getD ei []).get? 1 = some s → pyInt? s = some n →
      pairWarn segs si ei =
        if n ≠ 0 ∧ n ≠ (((segs.drop si).take (ei + 1 - si)).length : Int)
        then [seMismatchMsg n ((segs.drop si).take (ei + 1 - si)).length] else []) ∧
    (∀ segs si ei, ((segs.getD ei []).get? 1 = none ∨
        ∃ s, (segs.getD ei []).get? 1 = some s ∧ pyInt? s = none) →
      pairWarn segs si ei = ["SE01 missing or not integer."]) := by
  refine ⟨fun t => rfl, vLoop_zip, pairWarn_parsed, pairWarn_bad⟩

/-- C5 witness: the amended pair rule applied to a concrete two-segment pair
with SE01 = 12 and an actual count of 2. -/
theorem C5_validator_pairing_witness :
    pairWarn [["ST", "270", "0001"], ["SE", "12", "0001"]] 0 1 = [seMismatchMsg 12 2] := by
  rw [C5_validator_pairing.2.2.1 [["ST", "270", "0001"], ["SE", "12", "0001"]] 0 1 "12" 12
    (by decide) (by decide)]
  decide

/-- C6 counterexample: build_270 with identical explicit arguments but two
different clock readings returns two different documents, so the builders are
not functions of their explicit arguments alone. -/
theorem C6_clock_changes_output :
    build_270 c4args cnow ≠ build_270 c4args cnow2 := by
  decide

/-- C6 amended: each builder depends on the ambient clock only through the
formatted date and time strings it reads; with those held fixed, identical
arguments always give identical output (and the parsers take no clock at all). -/
theorem C6_builders_clock_deterministic :
    (∀ (a : B270In) (n n' : PyNow), n.yymmdd = n'.yymmdd → n.yyyymmdd = n'.yyyymmdd →
        n.hhmm = n'.hhmm → build_270 a n = build_270 a n') ∧
    (∀ i g st p1 p2 p3 p4 p5 p6 p7 p8 (n n' : PyNow), n.yymmdd = n'.yymmdd →
        n.yyyymmdd = n'.yyyymmdd → n.hhmm = n'.hhmm →
        build_835 i g st p1 p2 p3 p4 p5 p6 p7 p8 n = build_835 i g st p1 p2 p3 p4 p5 p6 p7 p8 n') ∧
    (∀ i g st p1 p2 p3 p4 p5 p6 p7 p8 de (n n' : PyNow), n.yymmdd = n'.yymmdd →
        n.yyyymmdd = n'.yyyymmdd → n.hhmm = n'.hhmm →
        build_837 i g st p1 p2 p3 p4 p5 p6 p7 p8 de n = build_837 i g st p1 p2 p3 p4 p5 p6 p7 p8 de n') ∧
    (∀ i g st p1 p2 p3 p4 p5 p6 p7 dos (n n' : PyNow), n.yymmdd = n'.yymmdd →
        n.yyyymmdd = n'.yyyymmdd → n.hhmm = n'.hhmm →
        build_276 i g st p1 p2 p3 p4 p5 p6 p7 dos n = build_276 i g st p1 p2 p3 p4 p5 p6 p7 dos n') := by
  have key : ∀ (n n' : PyNow), n.yymmdd = n'.yymmdd → n.yyyymmdd = n'.yyyymmdd →
      n.hhmm = n'.hhmm → n = n' := by
    intro n n' h1 h2 h3
    cases n
    cases n'
    simp only [PyNow.mk.injEq]
    exact ⟨h1, h2, h3⟩
  refine ⟨?_, ?_, ?_, ?_⟩
  · intro a n n' h1 h2 h3
    rw [key n n' h1 h2 h3]
  · intro i g st p1 p2 p3 p4 p5 p6 p7 p8 n n' h1 h2 h3
    rw [key n n' h1 h2 h3]
  · intro i g st p1 p2 p3 p4 p5 p6 p7 p8 de n n' h1 h2 h3
    rw [key n n' h1 h2 h3]
  · intro i g st p1 p2 p3 p4 p5 p6 p7 dos n n' h1 h2 h3
    rw [key n n' h1 h2 h3]

/-- C6 witness: the amended determinism applied at a concrete argument bundle
and clock reading. -/
theorem C6_builders_clock_deterministic_witness :
    build_270 c4args cnow = build_270 c4args cnow :=
  C6_builders_clock_deterministic.1 c4args cnow cnow rfl rfl rfl

/-- C7: parse_271 resolves the EB01 coverage code through the fixed EB01_MAP
table (1, 6, 7, 8, I, F with the listed descriptions), every code outside the
table yields the empty Coverage string, and every EB row in any parse carries
Coverage equal to the table lookup of its EB01 element. -/
theorem C7_eb01_lookup :
    lookupD EB01_MAP "1" = "Active Coverage" ∧
    lookupD EB01_MAP "6" = "Inactive Coverage" ∧
    lookupD EB01_MAP "7" = "Policy Cancelled" ∧
    lookupD EB01_MAP "8" = "Policy Not Renewed" ∧
    lookupD EB01_MAP "I" = "Non-Covered" ∧
    lookupD EB01_MAP "F" = "Financial/Remaining Benefits" ∧
    (∀ code, code ∉ (["1", "6", "7", "8", "I", "F"] : List String) →
      lookupD EB01_MAP code = "") ∧
    (∀ doc r, r ∈ (parse_271 doc).eb → ∃ e01,
      List.lookup "EB01" r.fields = some e01 ∧
      List.lookup "Coverage" r.fields = some (lookupD EB01_MAP e01)) := by
  refine ⟨rfl, rfl, rfl, rfl, rfl, rfl, lookupD_unknown, ?_⟩
  intro doc r hr
  obtain ⟨ps, rfl⟩ := parse_271_eb_shape doc r hr
  exact ⟨ebElem ps 1, lookup_eb01_mk ps, lookup_cov_mk ps⟩

/-- C7 witness: the unmapped code Z yields an empty Coverage value, and the
membership clause applied to the EB row of the concrete scenario document. -/
theorem C7_eb01_lookup_witness :
    lookupD EB01_MAP "Z" = "" ∧
    (∃ e01, List.lookup "EB01" c1rec.fields = some e01 ∧
      List.lookup "Coverage" c1rec.fields = some (lookupD EB01_MAP e01)) :=
  ⟨C7_eb01_lookup.2.2.2.2.2.2.1 "Z" (by decide),
   C7_eb01_lookup.2.2.2.2.2.2.2 c1doc c1rec (by decide)⟩

/-- C8 counterexample: the scenario document holds two tildes and only one
newline, so the newline fallback cannot fire; the detector keeps the tilde
terminator instead of falling back to newline. -/
theorem C8_detector_keeps_tilde :
    detect_delimiters c8doc = ('~', '*', ':') ∧
    (detect_delimiters c8doc).1 ≠ '\n' ∧
    countChar c8doc '~' = 2 ∧
    countChar c8doc '\n' = 1 := by
  refine ⟨by decide, by decide, by decide, by decide⟩

/-- C8 amended: on the scenario document the detector keeps the tilde
terminator (its fallback rule needs fewer than 2 terminators and at least 2
newlines), the tokenizer still extracts exactly the 2 expected segments, and
the fallback rule does fire on any ISA-less text meeting its guard. -/
theorem C8_two_segments_tilde :
    detect_delimiters c8doc = ('~', '*', ':') ∧
    parse_segments c8doc '~' '*' = [["ST", "270", "0001"], ["SE", "12", "0001"]] ∧
    (∀ t, ¬ (pyStartsWith t "ISA" = true ∧ 106 ≤ t.length) →
      countChar t '~' < 2 → 2 ≤ countChar t '\n' →
      (detect_delimiters t).1 = '\n') := by
  refine ⟨by decide, by decide, ?_⟩
  intro t h hc hn
  simp [detect_delimiters, h, DEFAULT_SEG, hc, hn]

/-- C8 witness: the fallback rule applied to a three-line ISA-less text. -/
theorem C8_two_segments_tilde_witness :
    (detect_delimiters "a\nb\nc").1 = '\n' :=
  C8_two_segments_tilde.2.2 "a\nb\nc" (by decide) (by decide) (by decide)

/-- C9 counterexample: at control number 1000000000 the 9-digit zero-pad
overflows to 10 digits and the ISA segment body reaches 86 characters before
its terminator, not 85. -/
theorem C9_isa_overflow_length :
    (joinElems '*' (isaFields 1000000000 "SENDERID" "RECEIVERID" cnow)).length = 86 ∧
    (86 : Nat) ≠ 85 := by
  refine ⟨by decide, by decide⟩

/-- C9 amended: for every control number below 10^9 and standard-width clock
strings, the ISA segment build_ISA emits has empty authorization and security
information fields (ISA02, ISA04) and measures 85 characters before its
terminator, far short of the fixed-width 106-character header; every build_270
document starts with exactly this segment. -/
theorem C9_isa_short_header :
    (∀ (ctrl : Nat) (now : PyNow), ctrl < 1000000000 → now.yymmdd.length = 6 →
      now.hhmm.length = 4 →
      (isaFields ctrl "SENDERID" "RECEIVERID" now).getD 2 "x" = "" ∧
      (isaFields ctrl "SENDERID" "RECEIVERID" now).getD 4 "x" = "" ∧
      (joinElems '*' (isaFields ctrl "SENDERID" "RECEIVERID" now)).length = 85 ∧
      build_ISA ctrl "SENDERID" "RECEIVERID" now '*' '~' =
        joinElems '*' (isaFields ctrl "SENDERID" "RECEIVERID" now) ++ "~") ∧
    (∀ (a : B270In) (n : PyNow), ∃ rest,
      build_270 a n =
        build_ISA a.isa_ctrl "SENDERID" "RECEIVERID" n a.elemT a.segT ++ rest) := by
  constructor
  · intro ctrl now hc h6 h4
    exact ⟨rfl, rfl, isa_joined_length ctrl now hc h6 h4, rfl⟩
  · intro a n
    exact ⟨_, rfl⟩

/-- C9 witness: the amended statement applied at control number 1 and the
fixed clock reading. -/
theorem C9_isa_short_header_witness :
    (joinElems '*' (isaFields 1 "SENDERID" "RECEIVERID" cnow)).length = 85 :=
  (C9_isa_short_header.1 1 cnow (by decide) (by decide) (by decide)).2.2.1

/-- C10 counterexample: the SE control-number element of a concrete build_835
document is the literal text of braces around st_ctrl, which has nine
characters, not seven. -/
theorem C10_se_literal_nine_chars :
    ((parse_segments c2doc835 '~' '*').filter (fun p => ebElem p 0 = "SE")).map
        (fun p => ebElem p 2) = ["\x7bst_ctrl\x7d"] ∧
    ("\x7bst_ctrl\x7d" : String).length = 9 ∧
    (9 : Nat) ≠ 7 := by
  refine ⟨by decide, by decide, by decide⟩

/-- C10 amended: for every input, build_835 and build_837 emit an SE line whose
control-number element is the literal nine-character text of st_ctrl wrapped in
braces, while their ST lines carry the decimal rendering of st_ctrl, and no
decimal rendering ever equals that literal. -/
theorem C10_se_literal_never_matches_st02 :
    (∀ (i g st : Nat) (p1 p2 p3 p4 p5 p6 p7 p8 : String) (n : PyNow), ∃ a b,
      build_835 i g st p1 p2 p3 p4 p5 p6 p7 p8 n =
        a ++ ("SE*12*\x7bst_ctrl\x7d~\n" ++ b)) ∧
    (∀ (i g st : Nat) (p1 p2 p3 p4 p5 p6 p7 p8 : String) (de : Option String)
        (n : PyNow), ∃ a b,
      build_837 i g st p1 p2 p3 p4 p5 p6 p7 p8 de n =
        a ++ ("SE*20*\x7bst_ctrl\x7d~\n" ++ b)) ∧
    (∀ (i g st : Nat) (p1 p2 p3 p4 p5 p6 p7 p8 : String) (n : PyNow), ∃ a b,
      build_835 i g st p1 p2 p3 p4 p5 p6 p7 p8 n =
        a ++ (("ST*835*" ++ natStr st ++ "*005010X221A1~\n") ++ b)) ∧
    (∀ (i g st : Nat) (p1 p2 p3 p4 p5 p6 p7 p8 : String) (de : Option String)
        (n : PyNow), ∃ a b,
      build_837 i g st p1 p2 p3 p4 p5 p6 p7 p8 de n =
        a ++ (("ST*837*" ++ natStr st ++ "*005010X222A1~\n") ++ b)) ∧
    (∀ st : Nat, natStr st ≠ "\x7bst_ctrl\x7d") ∧
    ("\x7bst_ctrl\x7d" : String).length = 9 := by
  refine ⟨?_, ?_, ?_, ?_, natStr_ne_sectrl, by decide⟩
  · intro i g st p1 p2 p3 p4 p5 p6 p7 p8 n
    exact ⟨_, _, concatAll_split
      ((build_835_lines i g st p1 p2 p3 p4 p5 p6 p7 p8 n).take 13)
      "SE*12*\x7bst_ctrl\x7d~\n"
      ((build_835_lines i g st p1 p2 p3 p4 p5 p6 p7 p8 n).drop 14)⟩
  · intro i g st p1 p2 p3 p4 p5 p6 p7 p8 de n
    exact ⟨_, _, concatAll_split
      ((build_837_lines i g st p1 p2 p3 p4 p5 p6 p7 p8 de n).take 18)
      "SE*20*\x7bst_ctrl\x7d~\n"
      ((build_837_lines i g st p1 p2 p3 p4 p5 p6 p7 p8 de n).drop 19)⟩
  · intro i g st p1 p2 p3 p4 p5 p6 p7 p8 n
    exact ⟨_, _, concatAll_split
      ((build_835_lines i g st p1 p2 p3 p4 p5 p6 p7 p8 n).take 2)
      ("ST*835*" ++ natStr st ++ "*005010X221A1~\n")
      ((build_835_lines i g st p1 p2 p3 p4 p5 p6 p7 p8 n).drop 3)⟩
  · intro i g st p1 p2 p3 p4 p5 p6 p7 p8 de n
    exact ⟨_, _, concatAll_split
      ((build_837_lines i g st p1 p2 p3 p4 p5 p6 p7 p8 de n).take 2)
      ("ST*837*" ++ natStr st ++ "*005010X222A1~\n")
      ((build_837_lines i g st p1 p2 p3 p4 p5 p6 p7 p8 de n).drop 3)⟩
